import Mathlib

/-
Verification of the patina-weathering morphospace engine
(src/patina_weathering_mcp/patina_weathering_mcp.py).

Shallow embedding conventions:
- Python float arithmetic is modelled by the real numbers; math.cos,
  math.pi, math.sqrt become Real.cos, Real.pi, Real.sqrt.
- A coordinate dict that always carries exactly the five parameter axes
  is modelled by the structure PatinaState with five real fields, in the
  order of PATINA_PARAMETER_NAMES.  Operations on caller-supplied dicts
  whose key set is in question (validation, KeyError behaviour) are
  modelled separately on association lists of (String, rational) pairs.
- Python dicts used as ordered catalogs (insertion order iteration)
  become association lists List (String, value) in source order.
- A function that can raise or return an error JSON is embedded with
  Except / Option.
-/

set_option maxHeartbeats 1000000

namespace Patina

/-- The five patina parameter axes, in source order
(PATINA_PARAMETER_NAMES in the Python module). -/
def PATINA_PARAMETER_NAMES : List String :=
  ["exposure_duration", "agent_intensity", "material_resistance",
   "intervention_state", "aesthetic_character"]

/-- A patina-space coordinate: one real value per axis, field order
matching PATINA_PARAMETER_NAMES. -/
@[ext]
structure PatinaState where
  exposure_duration : ℝ
  agent_intensity : ℝ
  material_resistance : ℝ
  intervention_state : ℝ
  aesthetic_character : ℝ

instance : Inhabited PatinaState :=
  ⟨⟨0, 0, 0, 0, 0⟩⟩

/-- The 8 canonical patina states (PATINA_CANONICAL_STATES), in source
insertion order. -/
noncomputable def PATINA_CANONICAL_STATES : List (String × PatinaState) :=
  [("fresh_pristine", ⟨0.00, 0.00, 0.50, 0.00, 0.50⟩),
   ("gentle_patina", ⟨0.30, 0.20, 0.60, 0.05, 0.85⟩),
   ("noble_verdigris", ⟨0.60, 0.45, 0.75, 0.10, 0.95⟩),
   ("deep_rust", ⟨0.55, 0.70, 0.40, 0.05, 0.55⟩),
   ("stone_erosion", ⟨0.70, 0.55, 0.65, 0.15, 0.75⟩),
   ("paper_foxing", ⟨0.45, 0.35, 0.15, 0.20, 0.60⟩),
   ("cracked_glaze", ⟨0.50, 0.40, 0.55, 0.10, 0.80⟩),
   ("total_ruin", ⟨0.95, 0.90, 0.30, 0.00, 0.40⟩)]

/-- The centers of the 6 visual types (PATINA_VISUAL_TYPES), in source
insertion order.  The keyword / optical / color metadata carried by each
entry in the source plays no role in any operation verified here and is
omitted. -/
noncomputable def PATINA_VISUAL_TYPES : List (String × PatinaState) :=
  [("pristine_surface", ⟨0.05, 0.05, 0.50, 0.05, 0.50⟩),
   ("warm_aged", ⟨0.30, 0.20, 0.60, 0.05, 0.85⟩),
   ("oxidation_bloom", ⟨0.55, 0.55, 0.55, 0.08, 0.75⟩),
   ("erosion_sculpted", ⟨0.70, 0.60, 0.60, 0.12, 0.70⟩),
   ("fracture_network", ⟨0.50, 0.45, 0.45, 0.10, 0.75⟩),
   ("archaeological_layer", ⟨0.90, 0.80, 0.35, 0.05, 0.45⟩)]

/-- Sum of squared per-axis differences: the expression under the square
root in _patina_euclidean_distance, written out over the five fixed
axes. -/
noncomputable def sumSqDiff (a b : PatinaState) : ℝ :=
  (a.exposure_duration - b.exposure_duration) ^ 2 +
  (a.agent_intensity - b.agent_intensity) ^ 2 +
  (a.material_resistance - b.material_resistance) ^ 2 +
  (a.intervention_state - b.intervention_state) ^ 2 +
  (a.aesthetic_character - b.aesthetic_character) ^ 2

/-- Euclidean distance between two states in patina parameter space
(_patina_euclidean_distance): sqrt of the sum over
PATINA_PARAMETER_NAMES of squared differences. -/
noncomputable def euclideanDistance (a b : PatinaState) : ℝ :=
  Real.sqrt (sumSqDiff a b)

/-- One step of the linear best-so-far scan shared by
_patina_nearest_canonical, _patina_nearest_visual_type and the preset
selection loop of generate_patina_attractor_prompt: replace the running
best exactly when the new distance is strictly smaller.  The running
best starts as float("inf") in the source; since every computed
distance is a finite value strictly below infinity, the first entry
always replaces it, which is modelled by the acc = none case. -/
def scanBest {α : Type} {β : Type} [LinearOrder β] (dist : α → β)
    (acc : Option (α × β)) (x : α) : Option (α × β) :=
  match acc with
  | none => some (x, dist x)
  | some (b, bd) => if dist x < bd then some (x, dist x) else some (b, bd)

/-- The full best-so-far linear scan over a catalog list. -/
def findMinFirst {α : Type} {β : Type} [LinearOrder β] (dist : α → β)
    (l : List α) : Option (α × β) :=
  l.foldl (scanBest dist) none

/-- Find the nearest canonical patina state
(_patina_nearest_canonical).  Returns some (state_id, distance); the
(None, inf) result the source produces for an empty catalog is modelled
by none. -/
noncomputable def nearestCanonical (state : PatinaState) :
    Option (String × ℝ) :=
  (findMinFirst (fun e => euclideanDistance state e.2)
      PATINA_CANONICAL_STATES).map (fun r => (r.1.1, r.2))

/-- Find the nearest patina visual type (_patina_nearest_visual_type).
Returns some (type_id, distance); none models the empty-catalog
(None, inf) case, which cannot occur for the concrete catalog. -/
noncomputable def nearestVisualType (state : PatinaState) :
    Option (String × ℝ) :=
  (findMinFirst (fun e => euclideanDistance state e.2)
      PATINA_VISUAL_TYPES).map (fun r => (r.1.1, r.2))

/-!  Generic lemmas about the best-so-far scan. -/

/-- Folding scanBest from a some accumulator always yields some. -/
theorem foldl_scanBest_isSome {α β : Type} [LinearOrder β] (dist : α → β)
    (l : List α) (p : α × β) :
    ∃ q, l.foldl (scanBest dist) (some p) = some q := by
  induction l generalizing p with
  | nil => exact ⟨p, rfl⟩
  | cons x xs ih =>
      simp only [List.foldl_cons, scanBest]
      by_cases h : dist x < p.2
      · rw [if_pos h]; exact ih (x, dist x)
      · rw [if_neg h]; exact ih p

/-- If no element of the list strictly beats the accumulated best, the
scan keeps the accumulator. -/
theorem foldl_scanBest_keep {α β : Type} [LinearOrder β] (dist : α → β)
    (l : List α) (p : α × β) (h : ∀ y ∈ l, p.2 ≤ dist y) :
    l.foldl (scanBest dist) (some p) = some p := by
  induction l with
  | nil => rfl
  | cons x xs ih =>
      simp only [List.foldl_cons, scanBest]
      rw [if_neg (not_lt.mpr (h x (List.mem_cons_self x xs)))]
      exact ih (fun y hy => h y (List.mem_cons_of_mem x hy))

/-- The scan result is either the accumulator or an element of the list
paired with its own distance. -/
theorem foldl_scanBest_mem {α β : Type} [LinearOrder β] (dist : α → β)
    (l : List α) (p q : α × β)
    (h : l.foldl (scanBest dist) (some p) = some q) :
    q = p ∨ (q.1 ∈ l ∧ q.2 = dist q.1) := by
  induction l generalizing p with
  | nil => exact Or.inl (Option.some.inj h).symm
  | cons x xs ih =>
      simp only [List.foldl_cons, scanBest] at h
      by_cases hx : dist x < p.2
      · rw [if_pos hx] at h
        rcases ih (x, dist x) h with h1 | h2
        · exact Or.inr ⟨h1 ▸ List.mem_cons_self x xs, by rw [h1]⟩
        · exact Or.inr ⟨List.mem_cons_of_mem x h2.1, h2.2⟩
      · rw [if_neg hx] at h
        rcases ih p h with h1 | h2
        · exact Or.inl h1
        · exact Or.inr ⟨List.mem_cons_of_mem x h2.1, h2.2⟩

/-- The scan result is no farther than the accumulator and no farther
than any element of the list. -/
theorem foldl_scanBest_min {α β : Type} [LinearOrder β] (dist : α → β)
    (l : List α) (p q : α × β)
    (h : l.foldl (scanBest dist) (some p) = some q) :
    q.2 ≤ p.2 ∧ ∀ y ∈ l, q.2 ≤ dist y := by
  induction l generalizing p with
  | nil =>
      refine ⟨le_of_eq (congrArg Prod.snd (Option.some.inj h).symm), ?_⟩
      intro y hy; exact absurd hy (List.not_mem_nil y)
  | cons x xs ih =>
      simp only [List.foldl_cons, scanBest] at h
      by_cases hx : dist x < p.2
      · rw [if_pos hx] at h
        obtain ⟨h1, h2⟩ := ih (x, dist x) h
        refine ⟨le_of_lt (lt_of_le_of_lt h1 hx), ?_⟩
        intro y hy
        rcases List.mem_cons.mp hy with rfl | hy
        · exact h1
        · exact h2 y hy
      · rw [if_neg hx] at h
        obtain ⟨h1, h2⟩ := ih p h
        refine ⟨h1, ?_⟩
        intro y hy
        rcases List.mem_cons.mp hy with rfl | hy
        · exact le_trans h1 (not_lt.mp hx)
        · exact h2 y hy

/-- With a some accumulator strictly beaten by entry e, and every entry
before e strictly farther than e and every entry after e no closer than
e, the scan ends at e.  This is the tie-break contract: the first entry
attaining the minimum wins, because only a strictly smaller distance
replaces the running best. -/
theorem foldl_scanBest_first {α β : Type} [LinearOrder β] (dist : α → β)
    (l1 l2 : List α) (e : α) (p : α × β)
    (h1 : ∀ y ∈ l1, dist e < dist y) (hp : dist e < p.2)
    (h2 : ∀ y ∈ l2, dist e ≤ dist y) :
    (l1 ++ e :: l2).foldl (scanBest dist) (some p) = some (e, dist e) := by
  induction l1 generalizing p with
  | nil =>
      simp only [List.nil_append, List.foldl_cons, scanBest]
      rw [if_pos hp]
      exact foldl_scanBest_keep dist l2 (e, dist e) h2
  | cons x xs ih =>
      simp only [List.cons_append, List.foldl_cons, scanBest]
      by_cases hx : dist x < p.2
      · rw [if_pos hx]
        exact ih (x, dist x) (fun y hy => h1 y (List.mem_cons_of_mem x hy))
          (h1 x (List.mem_cons_self x xs))
      · rw [if_neg hx]
        exact ih p (fun y hy => h1 y (List.mem_cons_of_mem x hy)) hp

/-- A non-empty catalog always yields some result. -/
theorem findMinFirst_isSome {α β : Type} [LinearOrder β] (dist : α → β)
    (l : List α) (h : l ≠ []) :
    ∃ q, findMinFirst dist l = some q := by
  match l with
  | [] => exact absurd rfl h
  | x :: xs =>
      show ∃ q, (x :: xs).foldl (scanBest dist) none = some q
      simp only [List.foldl_cons, scanBest]
      exact foldl_scanBest_isSome dist xs (x, dist x)

/-- The result of the scan is an element of the catalog, paired with its
own distance, and that distance is minimal over the catalog. -/
theorem findMinFirst_spec {α β : Type} [LinearOrder β] (dist : α → β)
    (l : List α) (q : α × β) (h : findMinFirst dist l = some q) :
    q.1 ∈ l ∧ q.2 = dist q.1 ∧ ∀ y ∈ l, q.2 ≤ dist y := by
  match l with
  | [] => exact absurd h (by simp [findMinFirst])
  | x :: xs =>
      have h' : xs.foldl (scanBest dist) (some (x, dist x)) = some q := by
        simpa [findMinFirst, scanBest] using h
      have hmem := foldl_scanBest_mem dist xs (x, dist x) q h'
      have hmin := foldl_scanBest_min dist xs (x, dist x) q h'
      constructor
      · rcases hmem with h1 | h2
        · exact h1 ▸ List.mem_cons_self x xs
        · exact List.mem_cons_of_mem x h2.1
      constructor
      · rcases hmem with h1 | h2
        · rw [h1]
        · exact h2.2
      · intro y hy
        rcases List.mem_cons.mp hy with rfl | hy
        · rcases hmem with h1 | _
          · exact le_of_eq (by rw [h1])
          · exact hmin.1
        · exact hmin.2 y hy

/-- First-attainer characterization at the top level: if e strictly
beats everything before it and is no farther than everything after it,
the scan returns e with its distance. -/
theorem findMinFirst_first {α β : Type} [LinearOrder β] (dist : α → β)
    (l1 l2 : List α) (e : α)
    (h1 : ∀ y ∈ l1, dist e < dist y) (h2 : ∀ y ∈ l2, dist e ≤ dist y) :
    findMinFirst dist (l1 ++ e :: l2) = some (e, dist e) := by
  match l1 with
  | [] =>
      show (e :: l2).foldl (scanBest dist) none = some (e, dist e)
      simp only [List.foldl_cons, scanBest]
      exact foldl_scanBest_keep dist l2 (e, dist e) h2
  | x :: xs =>
      show ((x :: xs) ++ e :: l2).foldl (scanBest dist) none = some (e, dist e)
      simp only [List.cons_append, List.foldl_cons, scanBest]
      exact foldl_scanBest_first dist xs l2 e (x, dist x)
        (fun y hy => h1 y (List.mem_cons_of_mem x hy))
        (h1 x (List.mem_cons_self x xs)) h2

/-!  Euclidean distance facts. -/

theorem sumSqDiff_nonneg (a b : PatinaState) : 0 ≤ sumSqDiff a b := by
  unfold sumSqDiff; positivity

theorem euclideanDistance_nonneg (a b : PatinaState) :
    0 ≤ euclideanDistance a b :=
  Real.sqrt_nonneg _

theorem sumSqDiff_eq_zero_iff (a b : PatinaState) :
    sumSqDiff a b = 0 ↔ a = b := by
  constructor
  · intro h
    unfold sumSqDiff at h
    have h1 : (a.exposure_duration - b.exposure_duration) ^ 2 = 0 := by
      nlinarith [sq_nonneg (a.agent_intensity - b.agent_intensity),
        sq_nonneg (a.material_resistance - b.material_resistance),
        sq_nonneg (a.intervention_state - b.intervention_state),
        sq_nonneg (a.aesthetic_character - b.aesthetic_character)]
    have h2 : (a.agent_intensity - b.agent_intensity) ^ 2 = 0 := by
      nlinarith [sq_nonneg (a.exposure_duration - b.exposure_duration),
        sq_nonneg (a.material_resistance - b.material_resistance),
        sq_nonneg (a.intervention_state - b.intervention_state),
        sq_nonneg (a.aesthetic_character - b.aesthetic_character)]
    have h3 : (a.material_resistance - b.material_resistance) ^ 2 = 0 := by
      nlinarith [sq_nonneg (a.exposure_duration - b.exposure_duration),
        sq_nonneg (a.agent_intensity - b.agent_intensity),
        sq_nonneg (a.intervention_state - b.intervention_state),
        sq_nonneg (a.aesthetic_character - b.aesthetic_character)]
    have h4 : (a.intervention_state - b.intervention_state) ^ 2 = 0 := by
      nlinarith [sq_nonneg (a.exposure_duration - b.exposure_duration),
        sq_nonneg (a.agent_intensity - b.agent_intensity),
        sq_nonneg (a.material_resistance - b.material_resistance),
        sq_nonneg (a.aesthetic_character - b.aesthetic_character)]
    have h5 : (a.aesthetic_character - b.aesthetic_character) ^ 2 = 0 := by
      nlinarith [sq_nonneg (a.exposure_duration - b.exposure_duration),
        sq_nonneg (a.agent_intensity - b.agent_intensity),
        sq_nonneg (a.material_resistance - b.material_resistance),
        sq_nonneg (a.intervention_state - b.intervention_state)]
    ext <;>
      [exact sub_eq_zero.mp (pow_eq_zero_iff two_ne_zero |>.mp h1);
       exact sub_eq_zero.mp (pow_eq_zero_iff two_ne_zero |>.mp h2);
       exact sub_eq_zero.mp (pow_eq_zero_iff two_ne_zero |>.mp h3);
       exact sub_eq_zero.mp (pow_eq_zero_iff two_ne_zero |>.mp h4);
       exact sub_eq_zero.mp (pow_eq_zero_iff two_ne_zero |>.mp h5)]
  · intro h
    subst h
    unfold sumSqDiff
    ring

theorem euclideanDistance_self (a : PatinaState) :
    euclideanDistance a a = 0 := by
  unfold euclideanDistance
  rw [(sumSqDiff_eq_zero_iff a a).mpr rfl, Real.sqrt_zero]

theorem euclideanDistance_pos_of_ne (a b : PatinaState) (h : a ≠ b) :
    0 < euclideanDistance a b := by
  unfold euclideanDistance
  rw [Real.sqrt_pos]
  rcases lt_or_eq_of_le (sumSqDiff_nonneg a b) with hlt | heq
  · exact hlt
  · exact absurd ((sumSqDiff_eq_zero_iff a b).mp heq.symm) h

/-!  Catalog well-formedness facts. -/

theorem canonical_states_coords_pairwise :
    PATINA_CANONICAL_STATES.Pairwise (fun e f => e.2 ≠ f.2) := by
  norm_num [PATINA_CANONICAL_STATES, List.pairwise_cons,
    PatinaState.mk.injEq]

theorem visual_types_coords_pairwise :
    PATINA_VISUAL_TYPES.Pairwise (fun e f => e.2 ≠ f.2) := by
  norm_num [PATINA_VISUAL_TYPES, List.pairwise_cons, PatinaState.mk.injEq]

/-- Shared exact-match helper: over a catalog with pairwise-distinct
coordinates, a query that coincides with one entry is classified as that
entry at distance 0. -/
theorem findMinFirst_exact_match (catalog : List (String × PatinaState))
    (hpw : catalog.Pairwise (fun e f => e.2 ≠ f.2))
    (s : PatinaState) (id : String) (c : PatinaState)
    (hmem : (id, c) ∈ catalog) (hs : s = c) :
    findMinFirst (fun e => euclideanDistance s e.2) catalog =
      some ((id, c), 0) := by
  subst hs
  obtain ⟨l1, l2, hcat⟩ := List.append_of_mem hmem
  rw [hcat] at hpw
  rw [hcat]
  have hzero : euclideanDistance s s = 0 := euclideanDistance_self s
  have h1 : ∀ y ∈ l1,
      euclideanDistance s (id, s).2 < euclideanDistance s y.2 := by
    intro y hy
    have hne : y.2 ≠ (id, s).2 :=
      (List.pairwise_append.mp hpw).2.2 y hy (id, s)
        (List.mem_cons_self _ _)
    show euclideanDistance s s < euclideanDistance s y.2
    rw [hzero]
    exact euclideanDistance_pos_of_ne s y.2 (fun h => hne h.symm)
  have h2 : ∀ y ∈ l2,
      euclideanDistance s (id, s).2 ≤ euclideanDistance s y.2 := by
    intro y hy
    show euclideanDistance s s ≤ euclideanDistance s y.2
    rw [hzero]
    exact euclideanDistance_nonneg s y.2
  have hres := findMinFirst_first (α := String × PatinaState) (β := ℝ)
    (fun e => euclideanDistance s e.2) l1 l2 (id, s) h1 h2
  rw [hres]
  show some ((id, s), euclideanDistance s s) = some ((id, s), 0)
  rw [hzero]

/-- C3: For every coordinate, classification against each of the two
concrete catalogs (canonical states, visual types) returns an identifier
present in that catalog together with a non-negative distance that is
minimal over the catalog; a coordinate coinciding exactly with a catalog
entry is classified as that entry at distance 0; and ties are broken by
the strict-less-than comparator, so the first entry of the catalog
attaining the minimum wins. -/
theorem nearest_classification_correct (s : PatinaState) :
    (∃ id d, nearestCanonical s = some (id, d) ∧
      (∃ c, (id, c) ∈ PATINA_CANONICAL_STATES ∧ d = euclideanDistance s c) ∧
      0 ≤ d ∧
      ∀ e ∈ PATINA_CANONICAL_STATES, d ≤ euclideanDistance s e.2) ∧
    (∃ id d, nearestVisualType s = some (id, d) ∧
      (∃ c, (id, c) ∈ PATINA_VISUAL_TYPES ∧ d = euclideanDistance s c) ∧
      0 ≤ d ∧
      ∀ e ∈ PATINA_VISUAL_TYPES, d ≤ euclideanDistance s e.2) ∧
    (∀ id c, (id, c) ∈ PATINA_CANONICAL_STATES → s = c →
      nearestCanonical s = some (id, 0)) ∧
    (∀ id c, (id, c) ∈ PATINA_VISUAL_TYPES → s = c →
      nearestVisualType s = some (id, 0)) ∧
    (∀ l1 l2 e, PATINA_CANONICAL_STATES = l1 ++ e :: l2 →
      (∀ y ∈ l1, euclideanDistance s e.2 < euclideanDistance s y.2) →
      (∀ y ∈ l2, euclideanDistance s e.2 ≤ euclideanDistance s y.2) →
      nearestCanonical s = some (e.1, euclideanDistance s e.2)) ∧
    (∀ l1 l2 e, PATINA_VISUAL_TYPES = l1 ++ e :: l2 →
      (∀ y ∈ l1, euclideanDistance s e.2 < euclideanDistance s y.2) →
      (∀ y ∈ l2, euclideanDistance s e.2 ≤ euclideanDistance s y.2) →
      nearestVisualType s = some (e.1, euclideanDistance s e.2)) := by
  have hcanne : PATINA_CANONICAL_STATES ≠ [] := by
    simp [PATINA_CANONICAL_STATES]
  have hvisne : PATINA_VISUAL_TYPES ≠ [] := by
    simp [PATINA_VISUAL_TYPES]
  refine ⟨?_, ?_, ?_, ?_, ?_, ?_⟩
  · obtain ⟨q, hq⟩ := findMinFirst_isSome (α := String × PatinaState)
      (β := ℝ) (fun e => euclideanDistance s e.2) PATINA_CANONICAL_STATES
      hcanne
    obtain ⟨hmem, hdist, hmin⟩ := findMinFirst_spec _ _ q hq
    refine ⟨q.1.1, q.2, ?_, ⟨q.1.2, ?_, hdist⟩, ?_, hmin⟩
    · unfold nearestCanonical
      rw [hq]; rfl
    · exact hmem
    · rw [hdist]; exact euclideanDistance_nonneg _ _
  · obtain ⟨q, hq⟩ := findMinFirst_isSome (α := String × PatinaState)
      (β := ℝ) (fun e => euclideanDistance s e.2) PATINA_VISUAL_TYPES
      hvisne
    obtain ⟨hmem, hdist, hmin⟩ := findMinFirst_spec _ _ q hq
    refine ⟨q.1.1, q.2, ?_, ⟨q.1.2, ?_, hdist⟩, ?_, hmin⟩
    · unfold nearestVisualType
      rw [hq]; rfl
    · exact hmem
    · rw [hdist]; exact euclideanDistance_nonneg _ _
  · intro id c hmem hs
    unfold nearestCanonical
    rw [findMinFirst_exact_match PATINA_CANONICAL_STATES
      canonical_states_coords_pairwise s id c hmem hs]
    rfl
  · intro id c hmem hs
    unfold nearestVisualType
    rw [findMinFirst_exact_match PATINA_VISUAL_TYPES
      visual_types_coords_pairwise s id c hmem hs]
    rfl
  · intro l1 l2 e hcat h1 h2
    unfold nearestCanonical
    rw [hcat, findMinFirst_first (α := String × PatinaState) (β := ℝ)
      (fun e => euclideanDistance s e.2) l1 l2 e h1 h2]
    rfl
  · intro l1 l2 e hcat h1 h2
    unfold nearestVisualType
    rw [hcat, findMinFirst_first (α := String × PatinaState) (β := ℝ)
      (fun e => euclideanDistance s e.2) l1 l2 e h1 h2]
    rfl

/-- C3 witness: the coordinate of fresh_pristine is classified as
fresh_pristine at distance 0, by the exact-match clause of the C3
theorem at a concrete input. -/
theorem nearest_classification_correct_witness :
    nearestCanonical ⟨0.00, 0.00, 0.50, 0.00, 0.50⟩ =
      some ("fresh_pristine", 0) :=
  (nearest_classification_correct ⟨0.00, 0.00, 0.50, 0.00, 0.50⟩).2.2.1
    "fresh_pristine" ⟨0.00, 0.00, 0.50, 0.00, 0.50⟩
    (by simp [PATINA_CANONICAL_STATES]) rfl

/-!  Interpolator (_patina_interpolate_states). -/

/-- The blend weight alpha derived from phase t and the waveform tag, as
computed by the if/elif chain of _patina_interpolate_states; any
unrecognized tag falls back to alpha = t. -/
noncomputable def patinaAlpha (pattern : String) (t : ℝ) : ℝ :=
  if pattern = "sinusoidal" then 0.5 * (1.0 - Real.cos (Real.pi * t))
  else if pattern = "triangular" then
    (if t ≤ 0.5 then 2.0 * t else 2.0 * (1.0 - t))
  else if pattern = "square" then (if t < 0.5 then 0.0 else 1.0)
  else t

/-- Interpolate between two patina states at phase t
(_patina_interpolate_states): per-axis a + alpha * (b - a). -/
noncomputable def interpolateStates (state_a state_b : PatinaState)
    (t : ℝ) (pattern : String) : PatinaState :=
  ⟨state_a.exposure_duration + patinaAlpha pattern t *
      (state_b.exposure_duration - state_a.exposure_duration),
   state_a.agent_intensity + patinaAlpha pattern t *
      (state_b.agent_intensity - state_a.agent_intensity),
   state_a.material_resistance + patinaAlpha pattern t *
      (state_b.material_resistance - state_a.material_resistance),
   state_a.intervention_state + patinaAlpha pattern t *
      (state_b.intervention_state - state_a.intervention_state),
   state_a.aesthetic_character + patinaAlpha pattern t *
      (state_b.aesthetic_character - state_a.aesthetic_character)⟩

theorem interpolate_of_alpha_zero (a b : PatinaState) (t : ℝ)
    (pattern : String) (h : patinaAlpha pattern t = 0) :
    interpolateStates a b t pattern = a := by
  unfold interpolateStates
  rw [h]
  ext <;> ring

theorem interpolate_of_alpha_one (a b : PatinaState) (t : ℝ)
    (pattern : String) (h : patinaAlpha pattern t = 1) :
    interpolateStates a b t pattern = b := by
  unfold interpolateStates
  rw [h]
  ext <;> ring

theorem patinaAlpha_sinusoidal (t : ℝ) :
    patinaAlpha "sinusoidal" t = 0.5 * (1.0 - Real.cos (Real.pi * t)) := by
  unfold patinaAlpha
  rw [if_pos rfl]

theorem patinaAlpha_triangular (t : ℝ) :
    patinaAlpha "triangular" t =
      if t ≤ 0.5 then 2.0 * t else 2.0 * (1.0 - t) := by
  unfold patinaAlpha
  rw [if_neg (by decide), if_pos rfl]

theorem patinaAlpha_square (t : ℝ) :
    patinaAlpha "square" t = if t < 0.5 then 0.0 else 1.0 := by
  unfold patinaAlpha
  rw [if_neg (by decide), if_neg (by decide), if_pos rfl]

theorem patinaAlpha_sinusoidal_zero : patinaAlpha "sinusoidal" 0 = 0 := by
  rw [patinaAlpha_sinusoidal, mul_zero, Real.cos_zero]
  norm_num

theorem patinaAlpha_sinusoidal_one : patinaAlpha "sinusoidal" 1 = 1 := by
  rw [patinaAlpha_sinusoidal, mul_one, Real.cos_pi]
  norm_num

theorem patinaAlpha_triangular_zero : patinaAlpha "triangular" 0 = 0 := by
  rw [patinaAlpha_triangular, if_pos (by norm_num : (0 : ℝ) ≤ 0.5)]
  norm_num

theorem patinaAlpha_triangular_one : patinaAlpha "triangular" 1 = 0 := by
  rw [patinaAlpha_triangular, if_neg (by norm_num : ¬ (1 : ℝ) ≤ 0.5)]
  norm_num

theorem patinaAlpha_triangular_half : patinaAlpha "triangular" 0.5 = 1 := by
  rw [patinaAlpha_triangular, if_pos (by norm_num : (0.5 : ℝ) ≤ 0.5)]
  norm_num

theorem patinaAlpha_triangular_quarter :
    patinaAlpha "triangular" 0.25 = 0.5 := by
  rw [patinaAlpha_triangular, if_pos (by norm_num : (0.25 : ℝ) ≤ 0.5)]
  norm_num

theorem patinaAlpha_square_zero : patinaAlpha "square" 0 = 0 := by
  rw [patinaAlpha_square, if_pos (by norm_num : (0 : ℝ) < 0.5)]
  norm_num

theorem patinaAlpha_square_one : patinaAlpha "square" 1 = 1 := by
  rw [patinaAlpha_square, if_neg (by norm_num : ¬ (1 : ℝ) < 0.5)]
  norm_num

/-- C1 counterexample: between the coordinates of fresh_pristine and
deep_rust, interpolating with the triangular waveform at phase 1
returns the first endpoint (alpha = 2 * (1 - 1) = 0), not the second,
refuting the claim that phase 1 returns b for all three waveforms. -/
theorem interpolate_phase_one_triangular_counterexample :
    interpolateStates ⟨0.00, 0.00, 0.50, 0.00, 0.50⟩
        ⟨0.55, 0.70, 0.40, 0.05, 0.55⟩ 1 "triangular" =
      ⟨0.00, 0.00, 0.50, 0.00, 0.50⟩ ∧
    interpolateStates ⟨0.00, 0.00, 0.50, 0.00, 0.50⟩
        ⟨0.55, 0.70, 0.40, 0.05, 0.55⟩ 1 "triangular" ≠
      ⟨0.55, 0.70, 0.40, 0.05, 0.55⟩ := by
  have h := interpolate_of_alpha_zero ⟨0.00, 0.00, 0.50, 0.00, 0.50⟩
    ⟨0.55, 0.70, 0.40, 0.05, 0.55⟩ 1 "triangular" patinaAlpha_triangular_one
  refine ⟨h, ?_⟩
  rw [h]
  norm_num [PatinaState.mk.injEq]

/-- C1 amended: at phase 0 all three named waveforms return a exactly;
at phase 1 the sinusoidal and square waveforms return b exactly, while
the triangular waveform returns a (its alpha is 2 * (1 - t), which is 0
at t = 1); the triangular waveform attains b exactly at phase 0.5. -/
theorem interpolate_endpoints (a b : PatinaState) :
    interpolateStates a b 0 "sinusoidal" = a ∧
    interpolateStates a b 0 "triangular" = a ∧
    interpolateStates a b 0 "square" = a ∧
    interpolateStates a b 1 "sinusoidal" = b ∧
    interpolateStates a b 1 "square" = b ∧
    interpolateStates a b 1 "triangular" = a ∧
    interpolateStates a b 0.5 "triangular" = b :=
  ⟨interpolate_of_alpha_zero a b 0 _ patinaAlpha_sinusoidal_zero,
   interpolate_of_alpha_zero a b 0 _ patinaAlpha_triangular_zero,
   interpolate_of_alpha_zero a b 0 _ patinaAlpha_square_zero,
   interpolate_of_alpha_one a b 1 _ patinaAlpha_sinusoidal_one,
   interpolate_of_alpha_one a b 1 _ patinaAlpha_square_one,
   interpolate_of_alpha_zero a b 1 _ patinaAlpha_triangular_one,
   interpolate_of_alpha_one a b 0.5 _ patinaAlpha_triangular_half⟩

/-- The per-axis midpoint of two states, as the claim words it:
(a + b) / 2 on every axis.  This definition follows the claim text, for
comparison with what the code computes. -/
noncomputable def midState (a b : PatinaState) : PatinaState :=
  ⟨(a.exposure_duration + b.exposure_duration) / 2,
   (a.agent_intensity + b.agent_intensity) / 2,
   (a.material_resistance + b.material_resistance) / 2,
   (a.intervention_state + b.intervention_state) / 2,
   (a.aesthetic_character + b.aesthetic_character) / 2⟩

/-- C2 counterexample: between the coordinates of fresh_pristine and
deep_rust, the triangular waveform at phase 0.5 has alpha = 2 * 0.5 = 1
and so returns the second endpoint exactly, which differs from the
midpoint, refuting the claim that phase 0.5 yields (a + b) / 2. -/
theorem triangular_midpoint_counterexample :
    interpolateStates ⟨0.00, 0.00, 0.50, 0.00, 0.50⟩
        ⟨0.55, 0.70, 0.40, 0.05, 0.55⟩ 0.5 "triangular" ≠
      midState ⟨0.00, 0.00, 0.50, 0.00, 0.50⟩
        ⟨0.55, 0.70, 0.40, 0.05, 0.55⟩ ∧
    interpolateStates ⟨0.00, 0.00, 0.50, 0.00, 0.50⟩
        ⟨0.55, 0.70, 0.40, 0.05, 0.55⟩ 0.5 "triangular" =
      ⟨0.55, 0.70, 0.40, 0.05, 0.55⟩ := by
  have h := interpolate_of_alpha_one ⟨0.00, 0.00, 0.50, 0.00, 0.50⟩
    ⟨0.55, 0.70, 0.40, 0.05, 0.55⟩ 0.5 "triangular"
    patinaAlpha_triangular_half
  refine ⟨?_, h⟩
  rw [h]
  norm_num [midState, PatinaState.mk.injEq]

/-- C2 amended: the triangular waveform at phase 0.5 returns b exactly
(its alpha peaks at 1 there); the exact per-axis midpoint (a + b) / 2
is attained at phase 0.25, where alpha = 0.5. -/
theorem triangular_midpoint_amended (a b : PatinaState) :
    interpolateStates a b 0.5 "triangular" = b ∧
    interpolateStates a b 0.25 "triangular" = midState a b := by
  refine ⟨interpolate_of_alpha_one a b 0.5 _ patinaAlpha_triangular_half, ?_⟩
  unfold interpolateStates midState
  rw [patinaAlpha_triangular_quarter]
  ext <;> (show _ + (0.5 : ℝ) * _ = _; ring)

/-!  C10: the interpolator keeps the unit box. -/

/-- All five axes lie in the closed interval from 0 to 1. -/
def inUnitBox (s : PatinaState) : Prop :=
  0 ≤ s.exposure_duration ∧ s.exposure_duration ≤ 1 ∧
  0 ≤ s.agent_intensity ∧ s.agent_intensity ≤ 1 ∧
  0 ≤ s.material_resistance ∧ s.material_resistance ≤ 1 ∧
  0 ≤ s.intervention_state ∧ s.intervention_state ≤ 1 ∧
  0 ≤ s.aesthetic_character ∧ s.aesthetic_character ≤ 1

theorem convex_unit (al x y : ℝ) (h0 : 0 ≤ al) (h1 : al ≤ 1)
    (hx0 : 0 ≤ x) (hx1 : x ≤ 1) (hy0 : 0 ≤ y) (hy1 : y ≤ 1) :
    0 ≤ x + al * (y - x) ∧ x + al * (y - x) ≤ 1 := by
  constructor
  · nlinarith [mul_nonneg h0 hy0, mul_nonneg (sub_nonneg.mpr h1) hx0]
  · nlinarith [mul_nonneg h0 (sub_nonneg.mpr hy1),
      mul_nonneg (sub_nonneg.mpr h1) (sub_nonneg.mpr hx1)]

theorem patinaAlpha_mem_unit (pattern : String) (t : ℝ)
    (ht0 : 0 ≤ t) (ht1 : t ≤ 1) :
    0 ≤ patinaAlpha pattern t ∧ patinaAlpha pattern t ≤ 1 := by
  unfold patinaAlpha
  split_ifs with h1 h2 h3 h4 h5
  · have hc1 : Real.cos (Real.pi * t) ≤ 1 := Real.cos_le_one _
    have hc2 : -1 ≤ Real.cos (Real.pi * t) := Real.neg_one_le_cos _
    constructor <;> nlinarith
  · constructor <;> nlinarith
  · constructor <;> nlinarith
  · norm_num
  · norm_num
  · exact ⟨ht0, ht1⟩

/-- C10: for every pattern string (recognized or not), every phase in
the unit interval, and endpoints inside the unit box, the derived alpha
lies in the unit interval and the interpolated coordinate stays inside
the unit box on every axis. -/
theorem interpolate_stays_in_unit_box (pattern : String) (t : ℝ)
    (a b : PatinaState) (ht0 : 0 ≤ t) (ht1 : t ≤ 1)
    (ha : inUnitBox a) (hb : inUnitBox b) :
    0 ≤ patinaAlpha pattern t ∧ patinaAlpha pattern t ≤ 1 ∧
      inUnitBox (interpolateStates a b t pattern) := by
  obtain ⟨hal0, hal1⟩ := patinaAlpha_mem_unit pattern t ht0 ht1
  obtain ⟨ha1, ha2, ha3, ha4, ha5, ha6, ha7, ha8, ha9, ha10⟩ := ha
  obtain ⟨hb1, hb2, hb3, hb4, hb5, hb6, hb7, hb8, hb9, hb10⟩ := hb
  refine ⟨hal0, hal1, ?_, ?_, ?_, ?_, ?_, ?_, ?_, ?_, ?_, ?_⟩
  · exact (convex_unit _ _ _ hal0 hal1 ha1 ha2 hb1 hb2).1
  · exact (convex_unit _ _ _ hal0 hal1 ha1 ha2 hb1 hb2).2
  · exact (convex_unit _ _ _ hal0 hal1 ha3 ha4 hb3 hb4).1
  · exact (convex_unit _ _ _ hal0 hal1 ha3 ha4 hb3 hb4).2
  · exact (convex_unit _ _ _ hal0 hal1 ha5 ha6 hb5 hb6).1
  · exact (convex_unit _ _ _ hal0 hal1 ha5 ha6 hb5 hb6).2
  · exact (convex_unit _ _ _ hal0 hal1 ha7 ha8 hb7 hb8).1
  · exact (convex_unit _ _ _ hal0 hal1 ha7 ha8 hb7 hb8).2
  · exact (convex_unit _ _ _ hal0 hal1 ha9 ha10 hb9 hb10).1
  · exact (convex_unit _ _ _ hal0 hal1 ha9 ha10 hb9 hb10).2

/-- C10 witness: a concrete instance with an unrecognized waveform tag,
phase 1/3, and concrete endpoints in the unit box. -/
theorem interpolate_stays_in_unit_box_witness :
    0 ≤ patinaAlpha "weathered" (1 / 3) ∧
      patinaAlpha "weathered" (1 / 3) ≤ 1 ∧
      inUnitBox (interpolateStates ⟨0.00, 0.00, 0.50, 0.00, 0.50⟩
        ⟨0.95, 0.90, 0.30, 0.00, 0.40⟩ (1 / 3) "weathered") :=
  interpolate_stays_in_unit_box "weathered" (1 / 3)
    ⟨0.00, 0.00, 0.50, 0.00, 0.50⟩ ⟨0.95, 0.90, 0.30, 0.00, 0.40⟩
    (by norm_num) (by norm_num)
    (by norm_num [inUnitBox]) (by norm_num [inUnitBox])

/-!  Rounding, as used by the sequence generators (Python round(x, 4)). -/

/-- Python round to the nearest integer with ties to even (banker's
rounding), modelled on exact real values; float representation effects
are not modelled.  For a tie (fractional part exactly one half) the even
neighbour is chosen; otherwise this is ordinary rounding. -/
noncomputable def pyRound (x : ℝ) : ℤ :=
  if Int.fract x = 0.5 then (if Even ⌊x⌋ then ⌊x⌋ else ⌊x⌋ + 1)
  else round x

/-- Python round(x, 4): round at the fourth decimal place. -/
noncomputable def round4 (x : ℝ) : ℝ :=
  (pyRound (x * 10000) : ℝ) / 10000

/-- Per-axis round(v, 4), as applied to the state dict stored in each
sample record. -/
noncomputable def roundState4 (s : PatinaState) : PatinaState :=
  ⟨round4 s.exposure_duration, round4 s.agent_intensity,
   round4 s.material_resistance, round4 s.intervention_state,
   round4 s.aesthetic_character⟩

/-!  Catalog lookups (Python `x in DICT` / `DICT[x]`). -/

noncomputable def canonicalLookup (id : String) : Option PatinaState :=
  (PATINA_CANONICAL_STATES.find? (fun e => e.1 == id)).map (fun e => e.2)

noncomputable def canonicalIds : List String :=
  PATINA_CANONICAL_STATES.map (fun e => e.1)

/-- The (vtype, vdist) pair the generators destructure from
_patina_nearest_visual_type.  The default is unreachable: the
visual-type catalog is non-empty, so nearestVisualType is always some
(nearestVisualType_always_some below). -/
noncomputable def nearestVisualPair (s : PatinaState) : String × ℝ :=
  (nearestVisualType s).getD ("", 0)

theorem nearestVisualType_always_some (s : PatinaState) :
    nearestVisualType s = some (nearestVisualPair s) := by
  obtain ⟨q, hq⟩ := findMinFirst_isSome (α := String × PatinaState)
    (β := ℝ) (fun e => euclideanDistance s e.2) PATINA_VISUAL_TYPES
    (by simp [PATINA_VISUAL_TYPES])
  unfold nearestVisualPair nearestVisualType
  rw [hq]
  rfl

/-!  Rhythmic presets (PATINA_RHYTHMIC_PRESETS). -/

/-- One rhythmic preset: period, the two canonical endpoint state ids,
and the waveform tag.  The long description strings are omitted. -/
structure RhythmicPreset where
  period : ℕ
  state_a : String
  state_b : String
  pattern : String
deriving DecidableEq

/-- The 5 rhythmic presets, in source insertion order. -/
def PATINA_RHYTHMIC_PRESETS : List (String × RhythmicPreset) :=
  [("aging_cycle", ⟨16, "fresh_pristine", "deep_rust", "triangular"⟩),
   ("restoration_pendulum", ⟨20, "total_ruin", "gentle_patina", "sinusoidal"⟩),
   ("oxidation_bloom", ⟨24, "fresh_pristine", "noble_verdigris", "sinusoidal"⟩),
   ("erosion_pulse", ⟨18, "stone_erosion", "gentle_patina", "sinusoidal"⟩),
   ("entropy_wave", ⟨30, "gentle_patina", "total_ruin", "sinusoidal"⟩)]

def presetLookup (name : String) : Option RhythmicPreset :=
  (PATINA_RHYTHMIC_PRESETS.find? (fun e => e.1 == name)).map (fun e => e.2)

def presetNames : List String :=
  PATINA_RHYTHMIC_PRESETS.map (fun e => e.1)

/-!  Sequence sample records. -/

/-- One sample record appended by apply_patina_rhythmic_preset.  The
Python dict literal has exactly the keys listed in
presetSampleFields. -/
structure PresetSample where
  step : ℕ
  phase : ℝ
  state : PatinaState
  nearest_visual_type : String
  visual_distance : ℝ

instance : Inhabited PresetSample :=
  ⟨⟨0, 0, default, "", 0⟩⟩

/-- The keys of the dict literal appended per step by
apply_patina_rhythmic_preset, in source order. -/
def presetSampleFields : List String :=
  ["step", "phase", "state", "nearest_visual_type", "visual_distance"]

/-- One sample record appended by generate_patina_rhythmic_sequence.
The Python dict literal has exactly the keys listed in
customSampleFields. -/
structure CustomSample where
  step : ℕ
  cycle : ℤ
  phase : ℝ
  state : PatinaState
  nearest_visual_type : String
  visual_distance : ℝ

instance : Inhabited CustomSample :=
  ⟨⟨0, 0, 0, default, "", 0⟩⟩

/-- The keys of the dict literal appended per step by
generate_patina_rhythmic_sequence, in source order. -/
def customSampleFields : List String :=
  ["step", "cycle", "phase", "state", "nearest_visual_type",
   "visual_distance"]

/-- The sample built at a given step of the fixed preset replay loop:
t = step / period, interpolate, classify against the visual types,
round phase / state values / distance to 4 decimals. -/
noncomputable def presetSampleAt (state_a state_b : PatinaState)
    (pattern : String) (period : ℕ) (step : ℕ) : PresetSample :=
  let t : ℝ := (step : ℝ) / (period : ℝ)
  let st := interpolateStates state_a state_b t pattern
  ⟨step, round4 t, roundState4 st, (nearestVisualPair st).1,
   round4 (nearestVisualPair st).2⟩

/-- The sample built at a given step of the custom oscillation loop:
raw_t = step / steps_per_cycle + phase_offset, t = raw_t mod 1.0
(modelled by Int.fract), cycle = step // steps_per_cycle (Python floor
division, modelled by Int.fdiv). -/
noncomputable def customSampleAt (state_a state_b : PatinaState)
    (pattern : String) (steps_per_cycle : ℤ) (phase_offset : ℝ)
    (step : ℕ) : CustomSample :=
  let raw_t : ℝ := (step : ℝ) / ((steps_per_cycle : ℤ) : ℝ) + phase_offset
  let t := Int.fract raw_t
  let st := interpolateStates state_a state_b t pattern
  ⟨step, Int.fdiv (step : ℤ) steps_per_cycle, round4 t, roundState4 st,
   (nearestVisualPair st).1, round4 (nearestVisualPair st).2⟩

/-!  The two generator operations. -/

/-- Structured error results (error JSON payloads in the source). -/
inductive PatinaError where
  | unknownPreset (name : String) (available : List String)
  | unknownState (id : String) (available : List String)

/-- The success payload of apply_patina_rhythmic_preset. -/
structure PresetOutput where
  preset : String
  period : ℕ
  pattern : String
  state_a : String
  state_b : String
  sequence : List PresetSample
  total_steps : ℕ

/-- apply_patina_rhythmic_preset: replay one full period of a named
preset.  The source indexes PATINA_CANONICAL_STATES[cfg.state_a]
directly; every preset references a valid canonical id
(presets_reference_valid_states below), so the getD default is
unreachable. -/
noncomputable def apply_rhythmic_preset (preset_name : String) :
    Except PatinaError PresetOutput :=
  match presetLookup preset_name with
  | none => .error (.unknownPreset preset_name presetNames)
  | some cfg =>
      let state_a := (canonicalLookup cfg.state_a).getD default
      let state_b := (canonicalLookup cfg.state_b).getD default
      let seq := (List.range cfg.period).map
        (presetSampleAt state_a state_b cfg.pattern cfg.period)
      .ok ⟨preset_name, cfg.period, cfg.pattern, cfg.state_a, cfg.state_b,
        seq, seq.length⟩

/-- The success payload of generate_patina_rhythmic_sequence. -/
structure CustomOutput where
  state_a : String
  state_b : String
  pattern : String
  num_cycles : ℤ
  steps_per_cycle : ℤ
  phase_offset : ℝ
  total_steps : ℤ
  sequence : List CustomSample

/-- generate_patina_rhythmic_sequence: custom oscillation between two
canonical states.  Unknown state ids yield the error JSON listing the
valid ids; there is no validation of num_cycles / steps_per_cycle, and
range(total_steps) of a non-positive total is empty (modelled by
Int.toNat). -/
noncomputable def generate_rhythmic_sequence (state_a_id state_b_id : String)
    (oscillation_pattern : String) (num_cycles steps_per_cycle : ℤ)
    (phase_offset : ℝ) : Except PatinaError CustomOutput :=
  match canonicalLookup state_a_id with
  | none => .error (.unknownState state_a_id canonicalIds)
  | some state_a =>
    match canonicalLookup state_b_id with
    | none => .error (.unknownState state_b_id canonicalIds)
    | some state_b =>
      let total_steps := num_cycles * steps_per_cycle
      .ok ⟨state_a_id, state_b_id, oscillation_pattern, num_cycles,
        steps_per_cycle, phase_offset, total_steps,
        (List.range total_steps.toNat).map
          (customSampleAt state_a state_b oscillation_pattern
            steps_per_cycle phase_offset)⟩

/-- Every rhythmic preset references valid canonical state ids, so the
direct dict indexing in the replay cannot raise. -/
theorem presets_reference_valid_states :
    ∀ p ∈ PATINA_RHYTHMIC_PRESETS,
      (canonicalLookup p.2.state_a).isSome = true ∧
      (canonicalLookup p.2.state_b).isSome = true := by
  decide

/-- C5 counterexample: calling the custom oscillation generator with
num_cycles = 0 (a non-positive cycle count) and valid state ids
succeeds with an empty sequence instead of failing with a
ValidationError. -/
theorem nonpositive_counts_no_error_counterexample :
    ∃ out, generate_rhythmic_sequence "fresh_pristine" "deep_rust"
        "sinusoidal" 0 20 0 = .ok out ∧
      out.sequence = [] ∧ out.total_steps = 0 := by
  refine ⟨_, rfl, ?_, rfl⟩
  norm_num

/-- C5 amended: the generator performs no positivity validation on the
cycle and per-cycle sample counts: with valid state ids it succeeds for
every choice of num_cycles and steps_per_cycle, and whenever their
product is non-positive (in particular whenever exactly one of them is
non-positive) the returned sequence is empty. -/
theorem nonpositive_counts_succeed (aId bId pat : String)
    (C S : ℤ) (phi : ℝ) (sa sb : PatinaState)
    (ha : canonicalLookup aId = some sa)
    (hb : canonicalLookup bId = some sb) :
    ∃ out, generate_rhythmic_sequence aId bId pat C S phi = .ok out ∧
      out.total_steps = C * S ∧ (C * S ≤ 0 → out.sequence = []) := by
  unfold generate_rhythmic_sequence
  rw [ha, hb]
  refine ⟨_, rfl, rfl, ?_⟩
  intro h
  have hz : (C * S).toNat = 0 := Int.toNat_of_nonpos h
  simp only [hz, List.range_zero, List.map_nil]

/-- C5 witness: the amended theorem at num_cycles = 0,
steps_per_cycle = 20, valid ids. -/
theorem nonpositive_counts_succeed_witness :
    ∃ out, generate_rhythmic_sequence "fresh_pristine" "deep_rust"
        "triangular" 0 20 (0.25 : ℝ) = .ok out ∧
      out.total_steps = (0 : ℤ) * 20 ∧
      ((0 : ℤ) * 20 ≤ 0 → out.sequence = []) :=
  nonpositive_counts_succeed "fresh_pristine" "deep_rust" "triangular"
    0 20 (0.25 : ℝ) ⟨0.00, 0.00, 0.50, 0.00, 0.50⟩
    ⟨0.55, 0.70, 0.40, 0.05, 0.55⟩ rfl rfl

/-- C4 counterexample: the record appended per step by the fixed preset
replay (e.g. preset aging_cycle, step 0) has exactly the five keys
step, phase, state, nearest_visual_type, visual_distance: it carries no
cycle index and no key for a classification against the canonical-state
catalog (the key the source uses for canonical classification elsewhere
is nearest_canonical_state); the custom-oscillation record adds only
the cycle key.  So neither generator's sample records contain
classifications against both catalogs. -/
theorem sample_record_keys_counterexample :
    presetSampleFields =
      ["step", "phase", "state", "nearest_visual_type",
       "visual_distance"] ∧
    "cycle" ∉ presetSampleFields ∧
    "nearest_canonical_state" ∉ presetSampleFields ∧
    customSampleFields =
      ["step", "cycle", "phase", "state", "nearest_visual_type",
       "visual_distance"] ∧
    "nearest_canonical_state" ∉ customSampleFields := by
  refine ⟨rfl, ?_, ?_, rfl, ?_⟩ <;> decide

/-- C4 amended: every sample record of both generators carries the
step index, the phase (rounded to 4 decimals), the interpolated
coordinate (each axis rounded to 4 decimals), and the classification
against the visual-type catalog together with its distance (rounded to
4 decimals); the custom-oscillation record additionally carries the
cycle index step // steps_per_cycle; the sequences are exactly the
per-step records for steps 0..period-1 (fixed replay) respectively
0..num_cycles*steps_per_cycle-1 (custom).  No canonical-state
classification appears in the records (see the counterexample). -/
theorem sequence_sample_contents :
    (∀ sa sb pat (period k : ℕ),
      (presetSampleAt sa sb pat period k).step = k ∧
      (presetSampleAt sa sb pat period k).phase =
        round4 ((k : ℝ) / (period : ℝ)) ∧
      (presetSampleAt sa sb pat period k).state =
        roundState4 (interpolateStates sa sb ((k : ℝ) / (period : ℝ)) pat) ∧
      (∃ vd, nearestVisualType
          (interpolateStates sa sb ((k : ℝ) / (period : ℝ)) pat) =
            some ((presetSampleAt sa sb pat period k).nearest_visual_type,
              vd) ∧
        (presetSampleAt sa sb pat period k).visual_distance =
          round4 vd)) ∧
    (∀ sa sb pat (S : ℤ) (phi : ℝ) (k : ℕ),
      (customSampleAt sa sb pat S phi k).step = k ∧
      (customSampleAt sa sb pat S phi k).cycle = Int.fdiv (k : ℤ) S ∧
      (customSampleAt sa sb pat S phi k).phase =
        round4 (Int.fract ((k : ℝ) / (S : ℝ) + phi)) ∧
      (customSampleAt sa sb pat S phi k).state =
        roundState4
          (interpolateStates sa sb (Int.fract ((k : ℝ) / (S : ℝ) + phi))
            pat) ∧
      (∃ vd, nearestVisualType
          (interpolateStates sa sb (Int.fract ((k : ℝ) / (S : ℝ) + phi))
            pat) =
            some ((customSampleAt sa sb pat S phi k).nearest_visual_type,
              vd) ∧
        (customSampleAt sa sb pat S phi k).visual_distance =
          round4 vd)) ∧
    (∀ name cfg sa sb, presetLookup name = some cfg →
      canonicalLookup cfg.state_a = some sa →
      canonicalLookup cfg.state_b = some sb →
      ∃ out, apply_rhythmic_preset name = .ok out ∧
        out.sequence = (List.range cfg.period).map
          (presetSampleAt sa sb cfg.pattern cfg.period) ∧
        out.total_steps = cfg.period) ∧
    (∀ aId bId pat (C S : ℤ) (phi : ℝ) sa sb,
      canonicalLookup aId = some sa → canonicalLookup bId = some sb →
      ∃ out, generate_rhythmic_sequence aId bId pat C S phi = .ok out ∧
        out.sequence = (List.range (C * S).toNat).map
          (customSampleAt sa sb pat S phi)) := by
  refine ⟨?_, ?_, ?_, ?_⟩
  · intro sa sb pat period k
    refine ⟨rfl, rfl, rfl, (nearestVisualPair _).2, ?_, rfl⟩
    rw [nearestVisualType_always_some]
    rfl
  · intro sa sb pat S phi k
    refine ⟨rfl, rfl, rfl, rfl, (nearestVisualPair _).2, ?_, rfl⟩
    rw [nearestVisualType_always_some]
    rfl
  · intro name cfg sa sb hname ha hb
    unfold apply_rhythmic_preset
    rw [hname]
    refine ⟨_, rfl, ?_, ?_⟩
    · show (List.range cfg.period).map
        (presetSampleAt ((canonicalLookup cfg.state_a).getD default)
          ((canonicalLookup cfg.state_b).getD default) cfg.pattern
          cfg.period) = _
      rw [ha, hb]
      rfl
    · show ((List.range cfg.period).map _).length = cfg.period
      rw [List.length_map, List.length_range]
  · intro aId bId pat C S phi sa sb hca hcb
    unfold generate_rhythmic_sequence
    rw [hca, hcb]
    exact ⟨_, rfl, rfl⟩

/-- C4 witness: the amended theorem at the concrete preset aging_cycle
and at a concrete custom call, hypotheses discharged by evaluation. -/
theorem sequence_sample_contents_witness :
    (∃ out, apply_rhythmic_preset "aging_cycle" = .ok out ∧
      out.sequence = (List.range 16).map
        (presetSampleAt ⟨0.00, 0.00, 0.50, 0.00, 0.50⟩
          ⟨0.55, 0.70, 0.40, 0.05, 0.55⟩ "triangular" 16) ∧
      out.total_steps = 16) ∧
    ((presetSampleAt ⟨0.00, 0.00, 0.50, 0.00, 0.50⟩
        ⟨0.55, 0.70, 0.40, 0.05, 0.55⟩ "triangular" 16 0).step = 0 ∧
      (presetSampleAt ⟨0.00, 0.00, 0.50, 0.00, 0.50⟩
        ⟨0.55, 0.70, 0.40, 0.05, 0.55⟩ "triangular" 16 0).phase =
          round4 ((0 : ℕ) / (16 : ℕ) : ℝ) ∧
      (presetSampleAt ⟨0.00, 0.00, 0.50, 0.00, 0.50⟩
        ⟨0.55, 0.70, 0.40, 0.05, 0.55⟩ "triangular" 16 0).state =
          roundState4 (interpolateStates ⟨0.00, 0.00, 0.50, 0.00, 0.50⟩
            ⟨0.55, 0.70, 0.40, 0.05, 0.55⟩ ((0 : ℕ) / (16 : ℕ) : ℝ)
            "triangular") ∧
      (∃ vd, nearestVisualType
          (interpolateStates ⟨0.00, 0.00, 0.50, 0.00, 0.50⟩
            ⟨0.55, 0.70, 0.40, 0.05, 0.55⟩ ((0 : ℕ) / (16 : ℕ) : ℝ)
            "triangular") =
            some ((presetSampleAt ⟨0.00, 0.00, 0.50, 0.00, 0.50⟩
              ⟨0.55, 0.70, 0.40, 0.05, 0.55⟩ "triangular" 16
              0).nearest_visual_type, vd) ∧
        (presetSampleAt ⟨0.00, 0.00, 0.50, 0.00, 0.50⟩
          ⟨0.55, 0.70, 0.40, 0.05, 0.55⟩ "triangular" 16
          0).visual_distance = round4 vd)) :=
  ⟨sequence_sample_contents.2.2.1 "aging_cycle"
      ⟨16, "fresh_pristine", "deep_rust", "triangular"⟩
      ⟨0.00, 0.00, 0.50, 0.00, 0.50⟩ ⟨0.55, 0.70, 0.40, 0.05, 0.55⟩
      rfl rfl rfl,
    sequence_sample_contents.1 ⟨0.00, 0.00, 0.50, 0.00, 0.50⟩
      ⟨0.55, 0.70, 0.40, 0.05, 0.55⟩ "triangular" 16 0⟩

/-!  C7: custom oscillation with C = 1, S = period, phase offset 0
agrees per-sample with the fixed preset replay. -/

theorem presetLookup_of_mem (name : String) (cfg : RhythmicPreset)
    (hmem : (name, cfg) ∈ PATINA_RHYTHMIC_PRESETS) :
    presetLookup name = some cfg := by
  fin_cases hmem <;> rfl

theorem presets_periods_pos :
    ∀ p ∈ PATINA_RHYTHMIC_PRESETS, 0 < p.2.period := by
  decide

/-- C7: for every rhythmic preset, the custom oscillation generator
called with the preset's two endpoint state ids, its waveform tag,
num_cycles = 1, steps_per_cycle = period, and phase offset 0 produces a
sequence that agrees per-sample with the fixed preset replay: the same
step, phase, interpolated coordinate, and visual-type classification
with distance at every position. -/
theorem custom_matches_preset (name : String) (cfg : RhythmicPreset)
    (hmem : (name, cfg) ∈ PATINA_RHYTHMIC_PRESETS) :
    ∃ pout cout,
      apply_rhythmic_preset name = .ok pout ∧
      generate_rhythmic_sequence cfg.state_a cfg.state_b cfg.pattern 1
        (cfg.period : ℤ) 0 = .ok cout ∧
      cout.sequence.map (fun s =>
          (s.step, s.phase, s.state, s.nearest_visual_type,
            s.visual_distance)) =
        pout.sequence.map (fun s =>
          (s.step, s.phase, s.state, s.nearest_visual_type,
            s.visual_distance)) := by
  have hlk := presetLookup_of_mem name cfg hmem
  have hpos := presets_periods_pos (name, cfg) hmem
  obtain ⟨hsa, hsb⟩ := presets_reference_valid_states (name, cfg) hmem
  obtain ⟨sa, hsa'⟩ := Option.isSome_iff_exists.mp hsa
  obtain ⟨sb, hsb'⟩ := Option.isSome_iff_exists.mp hsb
  unfold apply_rhythmic_preset generate_rhythmic_sequence
  rw [hlk, hsa', hsb']
  refine ⟨_, _, rfl, rfl, ?_⟩
  have hsa2 : canonicalLookup cfg.state_a = some sa := hsa'
  have hsb2 : canonicalLookup cfg.state_b = some sb := hsb'
  have htot : ((1 : ℤ) * (cfg.period : ℤ)).toNat = cfg.period := by simp
  simp only [hsa2, hsb2, Option.getD_some, List.map_map, htot]
  apply List.map_congr_left
  intro k hk
  have hklt : k < cfg.period := List.mem_range.mp hk
  have hppos : (0 : ℝ) < (cfg.period : ℝ) := by exact_mod_cast hpos
  have ht : Int.fract ((k : ℝ) / (((cfg.period : ℕ) : ℤ) : ℝ) + 0) =
      (k : ℝ) / ((cfg.period : ℕ) : ℝ) := by
    have hcast : (((cfg.period : ℕ) : ℤ) : ℝ) = ((cfg.period : ℕ) : ℝ) := by
      push_cast
      ring
    rw [hcast, add_zero]
    apply Int.fract_eq_self.mpr
    constructor
    · positivity
    · rw [div_lt_one hppos]
      exact_mod_cast hklt
  simp only [Function.comp_apply, customSampleAt, presetSampleAt, ht]

/-- C7 witness: the equivalence at the concrete preset aging_cycle. -/
theorem custom_matches_preset_witness :
    ∃ pout cout,
      apply_rhythmic_preset "aging_cycle" = .ok pout ∧
      generate_rhythmic_sequence "fresh_pristine" "deep_rust"
        "triangular" 1 (16 : ℤ) 0 = .ok cout ∧
      cout.sequence.map (fun s =>
          (s.step, s.phase, s.state, s.nearest_visual_type,
            s.visual_distance)) =
        pout.sequence.map (fun s =>
          (s.step, s.phase, s.state, s.nearest_visual_type,
            s.visual_distance)) :=
  custom_matches_preset "aging_cycle"
    ⟨16, "fresh_pristine", "deep_rust", "triangular"⟩
    (by decide)

/-!  Visual vocabulary (PATINA_VISUAL_VOCABULARY) and the vocabulary
selector (_patina_select_vocabulary). -/

/-- The 6 vocabulary categories, each with its 8 graded phrases, in
source insertion order. -/
def PATINA_VISUAL_VOCABULARY : List (String × List String) :=
  [("surface_texture",
    ["pristine smooth surface with original manufactured finish",
     "slight softening of edges from initial environmental contact",
     "developing surface irregularity with micro-texture formation",
     "established rough texture with tactile grain and character",
     "deep surface relief with cavities and raised formations",
     "friable crumbling surface losing structural coherence",
     "granular disaggregation — surface dissolving grain by grain",
     "total surface loss exposing weathered substrate core"]),
   ("color_transformation",
    ["original material colour unaltered by environment",
     "slight warmth from initial UV mellowing",
     "noticeable colour shift — tarnish warmth or bleaching cool",
     "developed oxide/patina colour overlaying original",
     "dominant new colour from chemical transformation products",
     "mottled patchwork of multiple weathering colour zones",
     "deep complex colour from layered weathering products",
     "fully transformed — no original colour remaining"]),
   ("structural_integrity",
    ["perfect structural condition — no cracks or deformation",
     "hairline surface cracks not affecting structure",
     "developed crack network with minor delamination beginning",
     "active cracking with measurable displacement at joints",
     "significant delamination — sections lifting from substrate",
     "structural weakness — load-bearing capacity compromised",
     "partial collapse — sections lost with remainder unstable",
     "fragmentary remains — structural system no longer functions"]),
   ("biological_colonization",
    ["sterile surface — no biological growth present",
     "initial algal greening on damp shaded areas",
     "scattered lichen pioneer colonies establishing",
     "developed lichen communities with multiple species",
     "moss cushions and higher plant colonization in crevices",
     "significant vegetation cover obscuring substrate",
     "dense biological mat — surface largely hidden",
     "full ecological integration — material becoming habitat"]),
   ("light_interaction",
    ["original reflectance — specular or diffuse as manufactured",
     "slight gloss reduction from surface micro-roughening",
     "matte surface where weathering products scatter light",
     "complex scatter from mixed rough and smooth zones",
     "deep shadow in erosion cavities and crack networks",
     "subsurface glow through translucent patina layers",
     "iridescent interference colours from thin oxide films",
     "light-absorbing friable surface with minimal reflectance"]),
   ("temporal_evidence",
    ["no visible time markers — could have been made yesterday",
     "subtle signs of age — gentle wear at contact points",
     "clear evidence of years of exposure and use",
     "decades of accumulated environmental interaction visible",
     "multi-generational time depth with repair evidence",
     "century-scale weathering with multiple intervention layers",
     "deep archaeological time — centuries of exposure",
     "geological time markers — millennia of environmental action"])]

/-- Deduplication keeping first occurrences in order:
list(dict.fromkeys(neighbors)) in the source. -/
def dedupFirst : List String → List String
  | [] => []
  | a :: rest => a :: dedupFirst (rest.filter (fun x => x != a))
termination_by l => l.length
decreasing_by
  simp only [List.length_cons]
  exact Nat.lt_succ_of_le (List.length_filter_le _ _)

theorem dedupFirst_sublist (l : List String) :
    List.Sublist (dedupFirst l) l := by
  induction l using dedupFirst.induct with
  | case1 => simp [dedupFirst]
  | case2 a rest ih =>
      rw [dedupFirst]
      exact List.Sublist.cons₂ a (ih.trans (List.filter_sublist rest))

theorem mem_dedupFirst (b : String) (l : List String) :
    b ∈ dedupFirst l ↔ b ∈ l := by
  induction l using dedupFirst.induct with
  | case1 => simp [dedupFirst]
  | case2 a rest ih =>
      rw [dedupFirst]
      simp only [List.mem_cons, ih, List.mem_filter]
      constructor
      · rintro (rfl | ⟨hmem, _⟩)
        · exact Or.inl rfl
        · exact Or.inr hmem
      · rintro (rfl | hmem)
        · exact Or.inl rfl
        · by_cases hb : b = a
          · exact Or.inl hb
          · exact Or.inr ⟨hmem, bne_iff_ne.mpr hb⟩

theorem dedupFirst_length_le (l : List String) :
    (dedupFirst l).length ≤ l.length :=
  (dedupFirst_sublist l).length_le

theorem dedupFirst_cons_length_pos (a : String) (l : List String) :
    1 ≤ (dedupFirst (a :: l)).length := by
  rw [dedupFirst]
  simp

theorem dedupFirst_dup_left (x z : String) :
    (dedupFirst [x, x, z]).length ≤ 2 := by
  rw [dedupFirst]
  by_cases hz : z = x
  · subst hz
    simp [dedupFirst, bne_self_eq_false]
  · simp only [List.filter, bne_self_eq_false]
    simp [bne_iff_ne.mpr hz, dedupFirst]

theorem dedupFirst_dup_right (x y : String) :
    (dedupFirst [x, y, y]).length ≤ 2 := by
  rw [dedupFirst]
  by_cases hy : y = x
  · subst hy
    simp [dedupFirst, bne_self_eq_false]
  · simp only [List.filter, bne_iff_ne.mpr hy]
    simp [dedupFirst, bne_self_eq_false]

/-- The raw vocabulary index per category: the category scalar (a fixed
weighted combination of specific axes, as in the source branch chain)
times (len(terms) - 1), rounded; the final else branch (idx = 0) is
unreachable for the six concrete categories but kept faithfully. -/
noncomputable def vocabScalarIndex (category : String) (s : PatinaState)
    (n : ℕ) : ℤ :=
  if category = "surface_texture" then
    pyRound (s.exposure_duration * ((n : ℝ) - 1))
  else if category = "color_transformation" then
    pyRound (((s.exposure_duration + s.agent_intensity) / 2.0) *
      ((n : ℝ) - 1))
  else if category = "structural_integrity" then
    pyRound ((s.agent_intensity * (1.0 - s.material_resistance * 0.5)) *
      ((n : ℝ) - 1))
  else if category = "biological_colonization" then
    pyRound ((s.exposure_duration * 0.6 + s.agent_intensity * 0.4) *
      ((n : ℝ) - 1))
  else if category = "light_interaction" then
    pyRound ((s.exposure_duration * 0.5 + s.agent_intensity * 0.3 +
      (1.0 - s.intervention_state) * 0.2) * ((n : ℝ) - 1))
  else if category = "temporal_evidence" then
    pyRound (s.exposure_duration * ((n : ℝ) - 1))
  else 0

/-- idx = max(0, min(idx, len(terms) - 1)). -/
noncomputable def vocabClampedIndex (category : String) (s : PatinaState)
    (n : ℕ) : ℤ :=
  max 0 (min (vocabScalarIndex category s n) ((n : ℤ) - 1))

/-- The selected phrases for one category: the phrase at the clamped
index together with its immediate left and right neighbours (indices
clamped at the ends), deduplicated keeping first occurrences. -/
noncomputable def selectTerms (category : String) (s : PatinaState)
    (terms : List String) : List String :=
  let idx := vocabClampedIndex category s terms.length
  dedupFirst
    [terms.getD (max 0 (idx - 1)).toNat "",
     terms.getD idx.toNat "",
     terms.getD (min ((terms.length : ℤ) - 1) (idx + 1)).toNat ""]

/-- _patina_select_vocabulary: the per-category selection over the
whole vocabulary table, in source order. -/
noncomputable def selectVocabulary (s : PatinaState) :
    List (String × List String) :=
  PATINA_VISUAL_VOCABULARY.map (fun e => (e.1, selectTerms e.1 s e.2))

theorem selectTerms_eq (category : String) (s : PatinaState)
    (terms : List String) :
    selectTerms category s terms = dedupFirst
      [terms.getD
        (max 0 (vocabClampedIndex category s terms.length - 1)).toNat "",
       terms.getD (vocabClampedIndex category s terms.length).toNat "",
       terms.getD (min ((terms.length : ℤ) - 1)
         (vocabClampedIndex category s terms.length + 1)).toNat ""] :=
  rfl

theorem selectTerms_props (category : String) (s : PatinaState)
    (terms : List String) (hn : terms.length = 8) :
    0 ≤ vocabClampedIndex category s terms.length ∧
    vocabClampedIndex category s terms.length ≤ (terms.length : ℤ) - 1 ∧
    terms.getD (vocabClampedIndex category s terms.length).toNat "" ∈
      selectTerms category s terms ∧
    (∀ t ∈ selectTerms category s terms, t ∈ terms) ∧
    1 ≤ (selectTerms category s terms).length ∧
    (selectTerms category s terms).length ≤ 3 ∧
    ((vocabClampedIndex category s terms.length = 0 ∨
        vocabClampedIndex category s terms.length =
          (terms.length : ℤ) - 1) →
      (selectTerms category s terms).length ≤ 2) := by
  set idx := vocabClampedIndex category s terms.length with hidx
  have h0 : 0 ≤ idx := le_max_left 0 _
  have h7 : idx ≤ (terms.length : ℤ) - 1 := by
    rw [hidx]
    unfold vocabClampedIndex
    rw [hn]
    exact max_le (by norm_num) (le_trans (min_le_right _ _) (by norm_num))
  have hlt : idx.toNat < terms.length := by omega
  have hltl : (max 0 (idx - 1)).toNat < terms.length := by omega
  have hltr : (min ((terms.length : ℤ) - 1) (idx + 1)).toNat <
      terms.length := by omega
  refine ⟨h0, h7, ?_, ?_, ?_, ?_, ?_⟩
  · rw [selectTerms_eq, ← hidx, mem_dedupFirst]
    simp
  · intro t ht
    rw [selectTerms_eq, ← hidx, mem_dedupFirst] at ht
    simp only [List.mem_cons, List.not_mem_nil, or_false] at ht
    rcases ht with rfl | rfl | rfl
    · rw [List.getD_eq_getElem _ _ hltl]
      exact List.getElem_mem _
    · rw [List.getD_eq_getElem _ _ hlt]
      exact List.getElem_mem _
    · rw [List.getD_eq_getElem _ _ hltr]
      exact List.getElem_mem _
  · rw [selectTerms_eq, ← hidx]
    exact dedupFirst_cons_length_pos _ _
  · rw [selectTerms_eq, ← hidx]
    exact le_trans (dedupFirst_length_le _) (by simp)
  · intro hedge
    rw [selectTerms_eq, ← hidx]
    rcases hedge with h | h
    · have hml : (max 0 (idx - 1)).toNat = idx.toNat := by omega
      rw [hml]
      exact dedupFirst_dup_left _ _
    · have hmr : (min ((terms.length : ℤ) - 1) (idx + 1)).toNat =
          idx.toNat := by omega
      rw [hmr]
      exact dedupFirst_dup_right _ _

theorem vocabulary_selection_correct_aux (s : PatinaState)
    (category : String) (terms : List String)
    (hmem : (category, terms) ∈ PATINA_VISUAL_VOCABULARY)
    (hn : terms.length = 8) :
    ∃ terms2 idx, (category, terms2) ∈ PATINA_VISUAL_VOCABULARY ∧
      terms2.length = 8 ∧
      idx = vocabClampedIndex category s terms2.length ∧
      0 ≤ idx ∧ idx ≤ (terms2.length : ℤ) - 1 ∧
      selectTerms category s terms = dedupFirst
        [terms2.getD (max 0 (idx - 1)).toNat "",
         terms2.getD idx.toNat "",
         terms2.getD (min ((terms2.length : ℤ) - 1) (idx + 1)).toNat ""] ∧
      terms2.getD idx.toNat "" ∈ selectTerms category s terms ∧
      (∀ t ∈ selectTerms category s terms, t ∈ terms2) ∧
      1 ≤ (selectTerms category s terms).length ∧
      (selectTerms category s terms).length ≤ 3 ∧
      ((idx = 0 ∨ idx = (terms2.length : ℤ) - 1) →
        (selectTerms category s terms).length ≤ 2) := by
  obtain ⟨p1, p2, p3, p4, p5, p6, p7⟩ := selectTerms_props category s terms hn
  exact ⟨terms, vocabClampedIndex category s terms.length, hmem, hn, rfl,
    p1, p2, selectTerms_eq category s terms, p3, p4, p5, p6, p7⟩

/-- C8: every category of the vocabulary selection is obtained by
computing the category's weighted scalar, rounding it against the
category's 8 phrases, clamping the index into range, taking the phrase
at that index together with its immediate neighbours and deduplicating
in order; consequently each category yields between 1 and 3 phrases,
all drawn from that category's table, containing the indexed phrase,
and at a boundary index (0 or N-1) at most 2 phrases. -/
theorem vocabulary_selection_correct (s : PatinaState)
    (category : String) (sel : List String)
    (hmem : (category, sel) ∈ selectVocabulary s) :
    ∃ terms idx, (category, terms) ∈ PATINA_VISUAL_VOCABULARY ∧
      terms.length = 8 ∧
      idx = vocabClampedIndex category s terms.length ∧
      0 ≤ idx ∧ idx ≤ (terms.length : ℤ) - 1 ∧
      sel = dedupFirst
        [terms.getD (max 0 (idx - 1)).toNat "",
         terms.getD idx.toNat "",
         terms.getD (min ((terms.length : ℤ) - 1) (idx + 1)).toNat ""] ∧
      terms.getD idx.toNat "" ∈ sel ∧
      (∀ t ∈ sel, t ∈ terms) ∧
      1 ≤ sel.length ∧ sel.length ≤ 3 ∧
      ((idx = 0 ∨ idx = (terms.length : ℤ) - 1) → sel.length ≤ 2) := by
  unfold selectVocabulary at hmem
  simp only [PATINA_VISUAL_VOCABULARY, List.map_cons, List.map_nil,
    List.mem_cons, List.not_mem_nil, or_false, Prod.mk.injEq] at hmem
  rcases hmem with ⟨rfl, rfl⟩ | ⟨rfl, rfl⟩ | ⟨rfl, rfl⟩ | ⟨rfl, rfl⟩ |
    ⟨rfl, rfl⟩ | ⟨rfl, rfl⟩ <;>
    exact vocabulary_selection_correct_aux s _ _
      (by simp [PATINA_VISUAL_VOCABULARY]) rfl

/-- C8 witness: the theorem at a concrete coordinate and the concrete
surface_texture category. -/
theorem vocabulary_selection_correct_witness :
    ∃ terms idx,
      ("surface_texture", terms) ∈ PATINA_VISUAL_VOCABULARY ∧
      terms.length = 8 ∧
      idx = vocabClampedIndex "surface_texture"
        ⟨0.00, 0.00, 0.50, 0.00, 0.50⟩ terms.length ∧
      0 ≤ idx ∧ idx ≤ (terms.length : ℤ) - 1 ∧
      selectTerms "surface_texture" ⟨0.00, 0.00, 0.50, 0.00, 0.50⟩
          (PATINA_VISUAL_VOCABULARY.getD 0 ("", [])).2 = dedupFirst
        [terms.getD (max 0 (idx - 1)).toNat "",
         terms.getD idx.toNat "",
         terms.getD (min ((terms.length : ℤ) - 1) (idx + 1)).toNat ""] ∧
      terms.getD idx.toNat "" ∈
        selectTerms "surface_texture" ⟨0.00, 0.00, 0.50, 0.00, 0.50⟩
          (PATINA_VISUAL_VOCABULARY.getD 0 ("", [])).2 ∧
      (∀ t ∈ selectTerms "surface_texture" ⟨0.00, 0.00, 0.50, 0.00, 0.50⟩
          (PATINA_VISUAL_VOCABULARY.getD 0 ("", [])).2, t ∈ terms) ∧
      1 ≤ (selectTerms "surface_texture" ⟨0.00, 0.00, 0.50, 0.00, 0.50⟩
          (PATINA_VISUAL_VOCABULARY.getD 0 ("", [])).2).length ∧
      (selectTerms "surface_texture" ⟨0.00, 0.00, 0.50, 0.00, 0.50⟩
          (PATINA_VISUAL_VOCABULARY.getD 0 ("", [])).2).length ≤ 3 ∧
      ((idx = 0 ∨ idx = (terms.length : ℤ) - 1) →
        (selectTerms "surface_texture" ⟨0.00, 0.00, 0.50, 0.00, 0.50⟩
          (PATINA_VISUAL_VOCABULARY.getD 0 ("", [])).2).length ≤ 2) :=
  vocabulary_selection_correct ⟨0.00, 0.00, 0.50, 0.00, 0.50⟩
    "surface_texture"
    (selectTerms "surface_texture" ⟨0.00, 0.00, 0.50, 0.00, 0.50⟩
      (PATINA_VISUAL_VOCABULARY.getD 0 ("", [])).2)
    (by simp [selectVocabulary, PATINA_VISUAL_VOCABULARY])

/-!  Attractor presets (PATINA_ATTRACTOR_PRESETS) and the sequence-mode
preset selection of generate_patina_attractor_prompt. -/

/-- One attractor entry: display name, optional basin-size weight,
classification tag, contributing source domains, and coordinate.  The
long description strings are omitted. -/
structure AttractorEntry where
  name : String
  basin_size : Option ℚ
  classification : String
  source_domains : List String
  state : PatinaState

/-- The 7 attractor presets, in source insertion order. -/
noncomputable def PATINA_ATTRACTOR_PRESETS :
    List (String × AttractorEntry) :=
  [("period_30", ⟨"Period 30 — Universal Sync", some 0.116, "lcm_sync",
    ["microscopy", "diatom", "heraldic", "surface_design", "splash",
     "patina"], ⟨0.40, 0.30, 0.55, 0.15, 0.75⟩⟩),
   ("period_29", ⟨"Period 29 — Emergent Resonance", some 0.084,
    "lcm_sync", ["microscopy", "nuclear", "catastrophe", "diatom",
     "heraldic"], ⟨0.55, 0.40, 0.60, 0.10, 0.70⟩⟩),
   ("period_19", ⟨"Period 19 — Gap Flow", some 0.074, "novel",
    ["microscopy", "nuclear", "catastrophe", "diatom"],
    ⟨0.48, 0.42, 0.65, 0.08, 0.82⟩⟩),
   ("period_28", ⟨"Period 28 — Composite Beat", some 0.024, "novel",
    ["microscopy", "nuclear", "catastrophe", "diatom"],
    ⟨0.52, 0.48, 0.50, 0.12, 0.72⟩⟩),
   ("period_60", ⟨"Period 60 — Harmonic Hub", some 0.040, "harmonic",
    ["microscopy", "nuclear", "catastrophe", "diatom"],
    ⟨0.50, 0.45, 0.52, 0.10, 0.65⟩⟩),
   ("bifurcation_edge", ⟨"Bifurcation Edge — Patina Threshold", none,
    "curated", ["patina"], ⟨0.52, 0.50, 0.48, 0.05, 0.65⟩⟩),
   ("organic_complexity", ⟨"Organic Complexity — Wabi-Sabi Perfection",
    none, "curated", ["patina"], ⟨0.35, 0.20, 0.70, 0.10, 0.95⟩⟩)]

noncomputable def attractorLookup (id : String) : Option AttractorEntry :=
  (PATINA_ATTRACTOR_PRESETS.find? (fun e => e.1 == id)).map (fun e => e.2)

/-- Python str.replace("period_", "") at the character-list level:
remove every left-to-right non-overlapping occurrence of the seven
characters of "period_". -/
def removePeriodTag : List Char → List Char
  | 'p' :: 'e' :: 'r' :: 'i' :: 'o' :: 'd' :: '_' :: rest =>
      removePeriodTag rest
  | c :: rest => c :: removePeriodTag rest
  | [] => []

def stripPeriodTag (s : String) : String :=
  ⟨removePeriodTag s.data⟩

/-- Python int() on the digit-only strings that occur here; a string
that is not entirely decimal digits raises ValueError, modelled by
none.  (Signs and surrounding whitespace, which Python also accepts,
never occur for the catalog identifiers and are not modelled.) -/
def pyIntParse (s : String) : Option ℤ :=
  if s.data ≠ [] ∧ s.data.all Char.isDigit then
    some ((s.data.foldl (fun acc c => acc * 10 + (c.toNat - 48)) 0 : ℕ) : ℤ)
  else none

/-- Python truthiness of the basin_size field: None and 0.0 are falsy. -/
def basinTruthy : Option ℚ → Bool
  | none => false
  | some b => b != 0

/-- The target period of the sequence mode: parsed from the attractor
id with the "period_" tag removed when the attractor metadata is
present with a truthy basin size; 30 when there is no metadata, the
basin size is falsy, or parsing fails. -/
noncomputable def targetPeriodOf (attractorMeta : Option AttractorEntry)
    (attractorId : String) : ℤ :=
  match attractorMeta with
  | some m =>
      if basinTruthy m.basin_size then
        (pyIntParse (stripPeriodTag attractorId)).getD 30
      else 30
  | none => 30

/-- The preset-selection loop of the sequence mode: linear best-so-far
scan over the rhythmic presets by absolute period difference, strict
less-than comparator. -/
def selectNearestPreset (target : ℤ) :
    Option ((String × RhythmicPreset) × ℤ) :=
  findMinFirst (fun e => |(e.2.period : ℤ) - target|)
    PATINA_RHYTHMIC_PRESETS

/-- C6: the sequence mode selects the preset whose period is closest to
the target (first preset in catalog order wins ties, by the strict
less-than scan); the target is parsed from the attractor id when the
attractor metadata is present with a truthy basin size, and defaults to
30 when there is no metadata, the basin is falsy, or parsing fails; in
particular attractor period_19 yields target 19, and the selected
preset is restoration_pendulum with period 20, at distance 1, which is
minimal over the configured periods 16, 18, 20, 24, 30. -/
theorem sequence_mode_preset_selection :
    (∀ t : ℤ, ∃ e d, selectNearestPreset t = some (e, d) ∧
      e ∈ PATINA_RHYTHMIC_PRESETS ∧ d = |(e.2.period : ℤ) - t| ∧
      ∀ f ∈ PATINA_RHYTHMIC_PRESETS, d ≤ |(f.2.period : ℤ) - t|) ∧
    (∀ t : ℤ, ∀ l1 l2 e, PATINA_RHYTHMIC_PRESETS = l1 ++ e :: l2 →
      (∀ y ∈ l1, |(e.2.period : ℤ) - t| < |(y.2.period : ℤ) - t|) →
      (∀ y ∈ l2, |(e.2.period : ℤ) - t| ≤ |(y.2.period : ℤ) - t|) →
      selectNearestPreset t = some (e, |(e.2.period : ℤ) - t|)) ∧
    (∀ id, targetPeriodOf none id = 30) ∧
    (∀ m id, basinTruthy m.basin_size = false →
      targetPeriodOf (some m) id = 30) ∧
    (∀ m id, basinTruthy m.basin_size = true →
      pyIntParse (stripPeriodTag id) = none →
      targetPeriodOf (some m) id = 30) ∧
    (∀ m id n, basinTruthy m.basin_size = true →
      pyIntParse (stripPeriodTag id) = some n →
      targetPeriodOf (some m) id = n) ∧
    (targetPeriodOf (attractorLookup "period_19") "period_19" = 19) ∧
    (∃ cfg, selectNearestPreset 19 =
        some (("restoration_pendulum", cfg), 1) ∧ cfg.period = 20) ∧
    (∀ f ∈ PATINA_RHYTHMIC_PRESETS, (1 : ℤ) ≤ |(f.2.period : ℤ) - 19|) := by
  refine ⟨?_, ?_, ?_, ?_, ?_, ?_, ?_, ?_, ?_⟩
  · intro t
    obtain ⟨q, hq⟩ := findMinFirst_isSome (α := String × RhythmicPreset)
      (β := ℤ) (fun e => |(e.2.period : ℤ) - t|) PATINA_RHYTHMIC_PRESETS
      (by simp [PATINA_RHYTHMIC_PRESETS])
    obtain ⟨hmem, hdist, hmin⟩ := findMinFirst_spec _ _ q hq
    exact ⟨q.1, q.2, hq, hmem, hdist, hmin⟩
  · intro t l1 l2 e hcat h1 h2
    unfold selectNearestPreset
    rw [hcat]
    exact findMinFirst_first (α := String × RhythmicPreset) (β := ℤ)
      (fun e => |(e.2.period : ℤ) - t|) l1 l2 e h1 h2
  · intro id
    rfl
  · intro m id hfalsy
    show (if basinTruthy m.basin_size = true then
      (pyIntParse (stripPeriodTag id)).getD 30 else 30) = 30
    rw [hfalsy]
    simp
  · intro m id htruthy hparse
    show (if basinTruthy m.basin_size = true then
      (pyIntParse (stripPeriodTag id)).getD 30 else 30) = 30
    rw [htruthy, hparse]
    simp
  · intro m id n htruthy hparse
    show (if basinTruthy m.basin_size = true then
      (pyIntParse (stripPeriodTag id)).getD 30 else 30) = n
    rw [htruthy, hparse]
    simp
  · show (if basinTruthy (some (0.074 : ℚ)) = true then
      (pyIntParse (stripPeriodTag "period_19")).getD 30 else 30) = 19
    have hb : basinTruthy (some (0.074 : ℚ)) = true :=
      bne_iff_ne.mpr (by norm_num)
    rw [hb]
    decide
  · exact ⟨⟨20, "total_ruin", "gentle_patina", "sinusoidal"⟩, by decide,
      rfl⟩
  · decide

/-- C6 witness: the first-wins clause at target 19 and the concrete
catalog decomposition around restoration_pendulum, hypotheses
discharged by evaluation: the selected preset at target 19 is
restoration_pendulum at distance 1 (beating erosion_pulse, period 18,
which ties at distance 1 but comes later in catalog order). -/
theorem sequence_mode_preset_selection_witness :
    selectNearestPreset 19 =
      some (("restoration_pendulum",
        ⟨20, "total_ruin", "gentle_patina", "sinusoidal"⟩),
        |(((⟨20, "total_ruin", "gentle_patina",
          "sinusoidal"⟩ : RhythmicPreset).period : ℤ)) - 19|) :=
  sequence_mode_preset_selection.2.1 19
    [("aging_cycle", ⟨16, "fresh_pristine", "deep_rust", "triangular"⟩)]
    [("oxidation_bloom",
      ⟨24, "fresh_pristine", "noble_verdigris", "sinusoidal"⟩),
     ("erosion_pulse", ⟨18, "stone_erosion", "gentle_patina",
      "sinusoidal"⟩),
     ("entropy_wave", ⟨30, "gentle_patina", "total_ruin", "sinusoidal"⟩)]
    ("restoration_pendulum",
      ⟨20, "total_ruin", "gentle_patina", "sinusoidal"⟩)
    rfl (by decide) (by decide)

/-!  C9: axis validation on caller-supplied coordinate dicts.  A
coordinate whose key set is in question is modelled as an association
list of (axis name, rational value) pairs; in-system states always
carry exactly the five axes and are covered by PatinaState above. -/

/-- Python `p in state` on a coordinate dict. -/
def dictHasKey (s : List (String × ℚ)) (k : String) : Bool :=
  s.any (fun e => e.1 == k)

/-- Python state[p]: the value at a key; a missing key raises KeyError,
modelled by none. -/
def dictGet (s : List (String × ℚ)) (k : String) : Option ℚ :=
  (s.find? (fun e => e.1 == k)).map (fun e => e.2)

/-- The validation loop over PATINA_PARAMETER_NAMES in
generate_patina_attractor_prompt (and the classify path): the first
parameter name missing from the dict (the error JSON names it), none
when all five are present.  Keys that are not parameter names are never
inspected. -/
def validateCustomState (s : List (String × ℚ)) : Option String :=
  PATINA_PARAMETER_NAMES.find? (fun p => !(dictHasKey s p))

/-- The sum inside _patina_euclidean_distance on dicts, over a given
axis-name list: a missing axis lookup on either side aborts with
KeyError (none), otherwise the squared differences are accumulated. -/
def sumSqDiffAux (a b : List (String × ℚ)) : List String → Option ℚ
  | [] => some 0
  | p :: rest =>
      match dictGet a p, dictGet b p, sumSqDiffAux a b rest with
      | some x, some y, some r => some ((x - y) ^ 2 + r)
      | _, _, _ => none

/-- The sum of squared per-axis differences of
_patina_euclidean_distance on dicts, over PATINA_PARAMETER_NAMES. -/
def sumSqDiffDict (a b : List (String × ℚ)) : Option ℚ :=
  sumSqDiffAux a b PATINA_PARAMETER_NAMES

/-- _patina_euclidean_distance on dicts: sqrt of the sum; none models
the uncaught KeyError escape on a missing axis. -/
noncomputable def euclideanDistanceDict (a b : List (String × ℚ)) :
    Option ℝ :=
  (sumSqDiffDict a b).map (fun q => Real.sqrt (q : ℝ))

theorem find?_congr_local (l : List String) (p q : String → Bool)
    (h : ∀ x ∈ l, p x = q x) : l.find? p = l.find? q := by
  induction l with
  | nil => rfl
  | cons x rest ih =>
      rw [List.find?_cons, List.find?_cons, h x (List.mem_cons_self x rest)]
      cases hq : q x
      · exact ih (fun y hy => h y (List.mem_cons_of_mem x hy))
      · rfl

theorem dictGet_append_single (s : List (String × ℚ)) (k p : String)
    (v : ℚ) (hne : k ≠ p) :
    dictGet (s ++ [(k, v)]) p = dictGet s p := by
  unfold dictGet
  induction s with
  | nil =>
      simp only [List.nil_append, List.find?_cons, List.find?_nil]
      have : ((k, v).1 == p) = false := by
        simp [hne]
      rw [this]
  | cons e rest ih =>
      rw [List.cons_append, List.find?_cons, List.find?_cons]
      cases he : (e.1 == p)
      · exact ih
      · rfl

theorem dictHasKey_append_single (s : List (String × ℚ)) (k p : String)
    (v : ℚ) (hne : k ≠ p) :
    dictHasKey (s ++ [(k, v)]) p = dictHasKey s p := by
  unfold dictHasKey
  rw [List.any_append]
  have : [(k, v)].any (fun e => e.1 == p) = false := by
    simp [hne]
  rw [this, Bool.or_false]

theorem sumSqDiffAux_isSome (a b : List (String × ℚ))
    (names : List String) :
    (sumSqDiffAux a b names).isSome = true ↔
      ∀ p ∈ names, (dictGet a p).isSome = true ∧
        (dictGet b p).isSome = true := by
  induction names with
  | nil => simp [sumSqDiffAux]
  | cons p rest ih =>
      rw [sumSqDiffAux]
      cases hga : dictGet a p with
      | none => simp [hga]
      | some x =>
        cases hgb : dictGet b p with
        | none => simp [hga, hgb]
        | some y =>
          cases hacc : sumSqDiffAux a b rest with
          | none =>
              simp only [List.mem_cons, forall_eq_or_imp, hga, hgb, ← ih,
                hacc]
              simp
          | some r =>
              simp only [List.mem_cons, forall_eq_or_imp, hga, hgb, ← ih,
                hacc]
              simp

/-- C9 counterexample: a coordinate dict carrying all five axes plus an
extra axis unexpected_axis passes the validation loop (it is not
rejected) and the distance computation succeeds on it, silently
ignoring the extra axis — refuting the claim that a coordinate carrying
an extra axis name is rejected with a validation error. -/
theorem extra_axis_not_rejected_counterexample :
    validateCustomState
      [("exposure_duration", 0), ("agent_intensity", 0),
       ("material_resistance", 0), ("intervention_state", 0),
       ("aesthetic_character", 0), ("unexpected_axis", 0)] = none ∧
    "unexpected_axis" ∉ PATINA_PARAMETER_NAMES ∧
    (sumSqDiffDict
      [("exposure_duration", 0), ("agent_intensity", 0),
       ("material_resistance", 0), ("intervention_state", 0),
       ("aesthetic_character", 0), ("unexpected_axis", 0)]
      [("exposure_duration", 0), ("agent_intensity", 0),
       ("material_resistance", 0), ("intervention_state", 0),
       ("aesthetic_character", 0), ("unexpected_axis", 0)]).isSome =
      true := by
  refine ⟨?_, ?_, ?_⟩ <;> decide

/-- C9 amended: the coordinate validation of the prompt/classify
operations rejects a dict missing any of the five axes with a
structured error naming the first missing axis, and passes exactly when
every axis name is present; the internal distance computation does not
itself validate — a missing axis on either side is an uncaught lookup
failure (KeyError, modelled by none), and the sum is defined exactly
when both arguments carry all five axes; extra axes are silently
ignored by both validation and the distance sum. -/
theorem coordinate_validation (s a b : List (String × ℚ)) :
    (validateCustomState s = none ↔
      ∀ p ∈ PATINA_PARAMETER_NAMES, dictHasKey s p = true) ∧
    (∀ p, validateCustomState s = some p →
      p ∈ PATINA_PARAMETER_NAMES ∧ dictHasKey s p = false) ∧
    ((sumSqDiffDict a b).isSome = true ↔
      ∀ p ∈ PATINA_PARAMETER_NAMES,
        (dictGet a p).isSome = true ∧ (dictGet b p).isSome = true) ∧
    (∀ k v, k ∉ PATINA_PARAMETER_NAMES →
      validateCustomState (s ++ [(k, v)]) = validateCustomState s ∧
      sumSqDiffDict (a ++ [(k, v)]) b = sumSqDiffDict a b ∧
      sumSqDiffDict a (b ++ [(k, v)]) = sumSqDiffDict a b) := by
  refine ⟨?_, ?_, sumSqDiffAux_isSome a b _, ?_⟩
  · unfold validateCustomState
    rw [List.find?_eq_none]
    constructor
    · intro h p hp
      have := h p hp
      simp only [Bool.not_eq_true', Bool.not_eq_false] at this
      exact this
    · intro h p hp
      simp [h p hp]
  · intro p hfind
    unfold validateCustomState at hfind
    refine ⟨List.mem_of_find?_eq_some hfind, ?_⟩
    have := List.find?_some hfind
    simpa using this
  · intro k v hk
    refine ⟨?_, ?_, ?_⟩
    · unfold validateCustomState
      apply find?_congr_local
      intro p hp
      rw [dictHasKey_append_single s k p v (fun h => hk (h ▸ hp))]
    · unfold sumSqDiffDict
      have hget : ∀ p ∈ PATINA_PARAMETER_NAMES,
          dictGet (a ++ [(k, v)]) p = dictGet a p := by
        intro p hp
        exact dictGet_append_single a k p v (fun h => hk (h ▸ hp))
      generalize hnames : PATINA_PARAMETER_NAMES = names at hget
      clear hnames
      induction names with
      | nil => rfl
      | cons p rest ih =>
          rw [sumSqDiffAux, sumSqDiffAux,
            hget p (List.mem_cons_self p rest),
            ih (fun q hq => hget q (List.mem_cons_of_mem p hq))]
    · unfold sumSqDiffDict
      have hget : ∀ p ∈ PATINA_PARAMETER_NAMES,
          dictGet (b ++ [(k, v)]) p = dictGet b p := by
        intro p hp
        exact dictGet_append_single b k p v (fun h => hk (h ▸ hp))
      generalize hnames : PATINA_PARAMETER_NAMES = names at hget
      clear hnames
      induction names with
      | nil => rfl
      | cons p rest ih =>
          rw [sumSqDiffAux, sumSqDiffAux,
            hget p (List.mem_cons_self p rest),
            ih (fun q hq => hget q (List.mem_cons_of_mem p hq))]

/-- C9 witness: the amended theorem at concrete dicts — a dict with all
five axes passes validation, and appending an extra axis leaves
validation and the distance sum unchanged. -/
theorem coordinate_validation_witness :
    validateCustomState
      [("exposure_duration", 0), ("agent_intensity", 0),
       ("material_resistance", 0), ("intervention_state", 0),
       ("aesthetic_character", 0)] = none ∧
    (validateCustomState
      ([("exposure_duration", 0), ("agent_intensity", 0),
        ("material_resistance", 0), ("intervention_state", 0),
        ("aesthetic_character", 0)] ++ [("unexpected_axis", (0 : ℚ))]) =
      validateCustomState
        [("exposure_duration", 0), ("agent_intensity", 0),
         ("material_resistance", 0), ("intervention_state", 0),
         ("aesthetic_character", 0)]) :=
  ⟨(coordinate_validation
      [("exposure_duration", 0), ("agent_intensity", 0),
       ("material_resistance", 0), ("intervention_state", 0),
       ("aesthetic_character", 0)] [] []).1.mpr (by decide),
   ((coordinate_validation
      [("exposure_duration", 0), ("agent_intensity", 0),
       ("material_resistance", 0), ("intervention_state", 0),
       ("aesthetic_character", 0)] [] []).2.2.2 "unexpected_axis" 0
      (by decide)).1⟩

end Patina
